import Mathlib

/-!
# Verification of the AIO Automation Tool (app.py, utils.py, report_generator.py)

A shallow embedding of the pure computational core of the repository:
Python strings become `String`, Python dicts with a fixed key set become
structures whose optional fields model possibly-absent keys, JSON-LD schema
payloads become an inductive `Json` type, and numpy similarity scores are
taken as given rational numbers.  Network calls, the sentence-transformer
model and the OpenAI calls are abstracted as explicit inputs ("the responses
as given"), exactly where the source consumes their results.
-/

/-! ## Python string primitives -/

/-- Python `str.lower()` (ASCII range, as used on URLs and page text). -/
def py_lower (s : String) : String := (s.toList.map Char.toLower).asString

/-- Python substring containment `a in b`. -/
def str_in (a b : String) : Bool := decide (a.toList <:+: b.toList)

/-- Python `str.strip()` (whitespace removed at both ends). -/
def py_strip (s : String) : String :=
  ((s.toList.dropWhile Char.isWhitespace).reverse.dropWhile Char.isWhitespace).reverse.asString

/-! ## trim_url (app.py 40-41, utils.py 67-68)

`def trim_url(url): return url.split('#')[0] if url else url`

`url.split('#')[0]` is the prefix of `url` before its first `'#'`; the
falsy string `""` is returned unchanged. -/

def trim_url (url : String) : String :=
  if url = "" then url else (url.toList.takeWhile (fun c => c ≠ '#')).asString

/-- C9: `trim_url` is idempotent, its result contains no `'#'` character when
the input is non-empty, and the falsy input `""` is returned unchanged. -/
theorem trim_url_idempotent_and_hash_free (url : String) :
    trim_url (trim_url url) = trim_url url ∧
    (url ≠ "" → '#' ∉ (trim_url url).toList) ∧
    (url = "" → trim_url url = url) := by
  refine ⟨?_, ?_, ?_⟩
  · by_cases h : url = ""
    · simp [trim_url, h]
    · by_cases h2 : trim_url url = ""
      · rw [h2]; simp [trim_url]
      · simp only [trim_url, h, if_false, h2]
        simp only [trim_url, h, if_false] at h2 ⊢
        rw [if_neg h2, List.toList_asString, List.takeWhile_idem]
  · intro h hmem
    simp only [trim_url, h, if_false, List.toList_asString] at hmem
    have := List.mem_takeWhile_imp hmem
    simp at this
  · intro h; simp [trim_url, h]

/-- Witness for C9 at the concrete input `"a#b"`. -/
theorem trim_url_idempotent_and_hash_free_witness :
    ("a#b" : String) ≠ "" ∧ '#' ∉ (trim_url "a#b").toList :=
  ⟨by decide, (trim_url_idempotent_and_hash_free "a#b").2.1 (by decide)⟩

/-! ## Character-list models of the Python string operations used on URLs -/

/-- Python `s.split(sep)[0]` / finding the first occurrence of a separator:
returns the characters before and after the first `sep`, or `none`. -/
def break_at_char (sep : Char) : List Char → Option (List Char × List Char)
  | [] => none
  | c :: rest =>
    if c = sep then some ([], rest)
    else match break_at_char sep rest with
      | none => none
      | some (pre, post) => some (c :: pre, post)

/-- Python `str.split(sep)` for a one-character separator. -/
def split_char (sep : Char) : List Char → List (List Char)
  | [] => [[]]
  | c :: rest =>
    let groups := split_char sep rest
    if c = sep then [] :: groups
    else match groups with
      | [] => [[c]]
      | g :: gs => (c :: g) :: gs

/-- Python `s.replace('www.', '')`: removes every occurrence, left to right. -/
def replace_www : List Char → List Char
  | 'w' :: 'w' :: 'w' :: '.' :: rest => replace_www rest
  | c :: rest => c :: replace_www rest
  | [] => []

/-- Python `s.startswith(p)`. -/
def py_startswith (s p : String) : Bool := decide (p.toList <+: s.toList)

/-- Python `s.endswith(p)`. -/
def py_endswith (s p : String) : Bool := decide (p.toList <:+ s.toList)

/-! ## `urllib.parse.urlparse(url).netloc`

`urlsplit` removes a leading `scheme:` (a letter followed by letters, digits,
`+`, `-`, `.`, up to the first colon); the netloc is then the segment after a
leading `"//"`, up to the first `/`, `?` or `#`, and is empty when the
remainder does not start with `"//"`. -/

def is_valid_scheme (cs : List Char) : Bool :=
  match cs with
  | [] => false
  | c :: rest => c.isAlpha && rest.all (fun ch => ch.isAlphanum || ch = '+' || ch = '-' || ch = '.')

def urlparse_netloc (url : String) : String :=
  let cs := url.toList
  let rest :=
    match break_at_char ':' cs with
    | some (pre, post) => if is_valid_scheme pre then post else cs
    | none => cs
  match rest with
  | '/' :: '/' :: tail => (tail.takeWhile (fun c => c ≠ '/' && c ≠ '?' && c ≠ '#')).asString
  | _ => ""

/-- `extract_domain` (app.py 61-64, utils.py 70-73): the second-to-last dot
component of the netloc when it has more than two components, else the first. -/
def extract_domain (url : String) : String :=
  let domain_parts := split_char '.' (urlparse_netloc url).toList
  if 2 < domain_parts.length then (domain_parts.getD (domain_parts.length - 2) []).asString
  else (domain_parts.headD []).asString

/-! ## SERP payload model

The payloads are JSON dicts with a fixed set of keys; a structure field of
type `Option _` models a possibly-absent key (`none` = key absent), matching
the `dict.get(key, default)` accesses of the source. -/

/-- A Python value, as returned by functions that may produce `None`, an
`int` or a `str`. -/
inductive PyVal where
  | pyNone : PyVal
  | pyInt : Int → PyVal
  | pyStr : String → PyVal
  deriving DecidableEq, Repr

/-- Python `str(v)`. -/
def py_str : PyVal → String
  | .pyNone => "None"
  | .pyInt n => toString n
  | .pyStr s => s

structure OrganicResult where
  link : Option String := none
  title : Option String := none
  deriving DecidableEq, Repr

structure AioListItem where
  title : Option String := none
  snippet : Option String := none
  deriving DecidableEq, Repr

structure TextBlock where
  /-- the `"type"` key -/
  btype : Option String := none
  snippet : Option String := none
  list : Option (List AioListItem) := none
  deriving DecidableEq, Repr

structure Reference where
  link : Option String := none
  deriving DecidableEq, Repr

structure AiOverview where
  text_blocks : Option (List TextBlock) := none
  references : Option (List Reference) := none
  deriving DecidableEq, Repr

structure SerpData where
  ai_overview : Option AiOverview := none
  organic_results : Option (List OrganicResult) := none
  deriving DecidableEq, Repr

/-! ## check_domain_in_ai_overview (identical in app.py 66-76 and utils.py 107-117)

Scans the AI Overview text-block snippets and reference links (lowercased)
for the domain as a substring; the accumulator loop of the source is the
disjunction of the two `any` scans.  The `url` parameter of the source is
never read. -/

def check_domain_in_ai_overview (serp_data : SerpData) (domain : String) : Bool :=
  match serp_data.ai_overview with
  | none => false
  | some ai =>
      (ai.text_blocks.getD []).any
        (fun block => str_in domain (py_lower (block.snippet.getD "")))
      || (ai.references.getD []).any
        (fun ref => str_in domain (py_lower (ref.link.getD "")))

/-- C6: `check_domain_in_ai_overview` returns `true` iff the domain occurs as
a substring of the lowercased snippet of some text block, or of the lowercased
link of some reference, inside the payload's AI Overview block; in particular
it returns `false` whenever the payload has no `"ai_overview"` key. -/
theorem check_domain_in_ai_overview_iff (serp_data : SerpData) (domain : String) :
    (check_domain_in_ai_overview serp_data domain = true ↔
      ∃ ai, serp_data.ai_overview = some ai ∧
        ((∃ block ∈ ai.text_blocks.getD [],
            domain.toList <:+: (py_lower (block.snippet.getD "")).toList) ∨
         (∃ ref ∈ ai.references.getD [],
            domain.toList <:+: (py_lower (ref.link.getD "")).toList))) ∧
    (serp_data.ai_overview = none → check_domain_in_ai_overview serp_data domain = false) := by
  refine ⟨?_, fun h => by simp [check_domain_in_ai_overview, h]⟩
  cases h : serp_data.ai_overview with
  | none => simp [check_domain_in_ai_overview, h]
  | some ai => simp [check_domain_in_ai_overview, h, str_in, List.any_eq_true]

/-- Witness for C6 at a concrete payload without an `"ai_overview"` key. -/
theorem check_domain_in_ai_overview_iff_witness :
    check_domain_in_ai_overview { organic_results := some [] } "efax" = false :=
  (check_domain_in_ai_overview_iff { organic_results := some [] } "efax").2 rfl

/-! ## The two copies of find_domain_position_in_organic -/

/-- `is_domain_match` (utils.py 119-142); the `st.info` calls are logging
side effects only. -/
def is_domain_match (url : String) (target_domain : String) : Bool :=
  if url = "" then false
  else
    let url_domain := (replace_www (urlparse_netloc (py_lower url)).toList).asString
    if url_domain = target_domain then true
    else if py_endswith url_domain ("." ++ target_domain) then true
    else if (split_char '.' url_domain.toList).contains target_domain.toList then true
    else false

namespace App

/-- `find_domain_position_in_organic` (app.py 78-84): 1-based index of the
first organic result whose lowercased link contains the domain as a
substring; Python `None` when there is none or the key is absent. -/
def find_domain_position_in_organic (serp_data : SerpData) (domain : String) : PyVal :=
  match serp_data.organic_results with
  | some results =>
      match results.findIdx? (fun result => str_in domain (py_lower (result.link.getD ""))) with
      | some i => .pyInt (i + 1)
      | none => .pyNone
  | none => .pyNone

end App

namespace Utils

/-- `find_domain_position_in_organic` (utils.py 144-157): normalises the
domain, matches links with `is_domain_match`, and returns `"> 50"` when no
result matches but organic results exist, `"Not Ranking"` when the key is
absent. -/
def find_domain_position_in_organic (serp_data : SerpData) (domain : String) : PyVal :=
  let d := (replace_www (py_lower domain).toList).asString
  match serp_data.organic_results with
  | some results =>
      match results.findIdx? (fun result => is_domain_match (result.link.getD "") d) with
      | some i => .pyInt (i + 1)
      | none => .pyStr "> 50"
  | none => .pyStr "Not Ranking"

end Utils

/-- C3 counterexample: on the payload with no `"organic_results"` key and
domain `"efax"`, the app.py copy returns `None` while the utils.py copy
returns the string `"Not Ranking"`, so the two copies are not extensionally
equal. -/
theorem find_domain_position_copies_differ :
    App.find_domain_position_in_organic {} "efax" = PyVal.pyNone ∧
    Utils.find_domain_position_in_organic {} "efax" = PyVal.pyStr "Not Ranking" ∧
    App.find_domain_position_in_organic {} "efax" ≠
      Utils.find_domain_position_in_organic {} "efax" := by
  exact ⟨rfl, rfl, by decide⟩

/-- C3 amended: each copy returns one plus the index of the first organic
result whose link matches its own domain test, so whenever the two matching
predicates first succeed at the same index the two copies return equal
values.  (On no-match payloads they differ, as the counterexample shows.) -/
theorem find_domain_position_copies_agree_on_common_first_match
    (serp_data : SerpData) (domain : String) (results : List OrganicResult) (i : Nat)
    (hres : serp_data.organic_results = some results)
    (happ : results.findIdx?
        (fun result => str_in domain (py_lower (result.link.getD ""))) = some i)
    (hutils : results.findIdx? (fun result => is_domain_match (result.link.getD "")
        ((replace_www (py_lower domain).toList).asString)) = some i) :
    App.find_domain_position_in_organic serp_data domain =
      Utils.find_domain_position_in_organic serp_data domain := by
  simp only [App.find_domain_position_in_organic, Utils.find_domain_position_in_organic,
    hres, happ, hutils]

/-- Witness for the amended C3 at a one-result payload both predicates match
at index 0. -/
theorem find_domain_position_copies_agree_witness :
    App.find_domain_position_in_organic
        { organic_results := some [{ link := some "https://www.efax.com/pricing" }] } "efax" =
      Utils.find_domain_position_in_organic
        { organic_results := some [{ link := some "https://www.efax.com/pricing" }] } "efax" :=
  find_domain_position_copies_agree_on_common_first_match
    { organic_results := some [{ link := some "https://www.efax.com/pricing" }] } "efax"
    [{ link := some "https://www.efax.com/pricing" }] 0 rfl (by decide) (by decide)

/-! ## rank_titles_by_semantic_similarity (app.py 243-250, utils.py 819-855)

The sentence-transformer is deterministic; its cosine scores enter the
embedding as the given list `cosine_scores`, one score per title.
`np.argsort(cosine_scores)[::-1]` followed by indexing yields the
(title, score) pairs in non-increasing score order; it is modelled as a
merge sort of the zipped pairs by non-increasing score, which realises the
same ordering specification (numpy's quicksort fixes no tie order). -/

def App.rank_titles_by_semantic_similarity (titles : List String) (cosine_scores : List ℚ)
    (threshold : ℚ) : List (String × ℚ) :=
  ((titles.zip cosine_scores).mergeSort (fun a b => decide (b.2 ≤ a.2))).filter
    (fun item => decide (threshold < item.2))

/-- The outcome of the model-scoring `try` block of the utils.py copy. -/
inductive ModelOutcome where
  | ok (cosine_scores : List ℚ)
  | raised

/-- `rank_titles_by_semantic_similarity` (utils.py 819-855): returns `[]` for
an empty title list (utils.py 831-832); on a model exception it logs and
falls back to `[(title, 0.8) for title in titles]` (utils.py 852-855). -/
def Utils.rank_titles_by_semantic_similarity (titles : List String) (outcome : ModelOutcome)
    (threshold : ℚ) : List (String × ℚ) :=
  if titles = [] then []
  else match outcome with
    | .ok cosine_scores => App.rank_titles_by_semantic_similarity titles cosine_scores threshold
    | .raised => titles.map (fun title => (title, (4 : ℚ)/5))

/-- C1: for every non-empty list of titles, with the model's similarity
scores taken as given (one per title), `rank_titles_by_semantic_similarity`
returns (title, score) pairs sorted in non-increasing score order, and the
returned pairs are exactly those input titles whose own score strictly
exceeds the threshold. -/
theorem rank_titles_sorted_and_exact (titles : List String) (cosine_scores : List ℚ)
    (threshold : ℚ) (hne : titles ≠ []) (hlen : titles.length = cosine_scores.length) :
    (App.rank_titles_by_semantic_similarity titles cosine_scores threshold).Pairwise
        (fun a b => b.2 ≤ a.2) ∧
    (App.rank_titles_by_semantic_similarity titles cosine_scores threshold).Perm
        ((titles.zip cosine_scores).filter (fun item => decide (threshold < item.2))) := by
  have trans : ∀ (a b c : String × ℚ), (decide (b.2 ≤ a.2)) = true →
      (decide (c.2 ≤ b.2)) = true → (decide (c.2 ≤ a.2)) = true := fun a b c hab hbc => by
    simp only [decide_eq_true_eq] at hab hbc ⊢
    exact le_trans hbc hab
  have total : ∀ (a b : String × ℚ),
      ((decide (b.2 ≤ a.2)) || (decide (a.2 ≤ b.2))) = true := fun a b => by
    simpa using le_total b.2 a.2
  constructor
  · have hs := List.sorted_mergeSort trans total (titles.zip cosine_scores)
    simp only [App.rank_titles_by_semantic_similarity]
    exact List.Pairwise.imp (fun h => by simpa using h)
      (hs.filter (fun item => decide (threshold < item.2)))
  · simp only [App.rank_titles_by_semantic_similarity]
    exact ((titles.zip cosine_scores).mergeSort_perm _).filter _

/-- Witness for C1 at a concrete one-title input. -/
theorem rank_titles_sorted_and_exact_witness :
    (["fax service"] : List String) ≠ [] ∧
    (["fax service"] : List String).length = [(1 : ℚ)].length ∧
    ((App.rank_titles_by_semantic_similarity ["fax service"] [(1 : ℚ)] 0).Pairwise
        (fun a b => b.2 ≤ a.2) ∧
     (App.rank_titles_by_semantic_similarity ["fax service"] [(1 : ℚ)] 0).Perm
        ((["fax service"].zip [(1 : ℚ)]).filter (fun item => decide ((0 : ℚ) < item.2)))) :=
  ⟨by decide, by decide, rank_titles_sorted_and_exact _ _ _ (by decide) (by decide)⟩

/-! ## Error paths (C4) -/

/-- The HTML-to-PDF conversion outcome inside `generate_pdf_report`
(report_generator.py 857-867). -/
inductive PdfConversion where
  | converted
  | raised

/-- The artifact returned by `generate_pdf_report`: a PDF rendered from the
HTML report, or — when `pdfkit.from_string` raises — the HTML report itself
written to an `.html` file and returned as a fallback
(report_generator.py 861-867). -/
inductive ReportArtifact where
  | pdfFile (html_report : String)
  | htmlFallback (html_report : String)
  deriving DecidableEq

/-- `generate_pdf_report` (report_generator.py 826-867), abstracted over the
conversion outcome: the wkhtmltopdf-missing branch (826-840) and the
exception branch (861-867) both fall back to writing the rendered HTML. -/
def ReportGen.generate_pdf_report (html_report : String) : PdfConversion → ReportArtifact
  | .converted => .pdfFile html_report
  | .raised => .htmlFallback html_report

/-- The outcome of the SerpAPI call in `get_social_results` (utils.py 797-817). -/
inductive SearchOutcome where
  | ok (data : SerpData)
  | raised

structure SocialResult where
  title : String
  link : String
  deriving DecidableEq, Repr

/-- Python's `results.append(...)` followed by
`if len(results) >= limit_max: break`: keeps elements until the count reaches
the limit, but always keeps the first appended element, even when
`limit_max = 0`. -/
def take_with_break {α : Type} (limit_max : Nat) : List α → List α
  | [] => []
  | x :: xs => if limit_max ≤ 1 then [x] else x :: take_with_break (limit_max - 1) xs

/-- The result rows built by `get_social_results` from a successful response
(utils.py 803-813). -/
def social_results_of_data (data : SerpData) (limit_max : Nat) : List SocialResult :=
  match data.organic_results with
  | some results => take_with_break limit_max (results.map (fun result =>
      { title := result.title.getD "No Title", link := result.link.getD "" }))
  | none => []

/-- `get_social_results` (utils.py 772-817): the keyword and site only build
the query string; on a SerpAPI exception it logs and returns `[]`
(utils.py 814-817). -/
def Utils.get_social_results (outcome : SearchOutcome) (limit_max : Nat) : List SocialResult :=
  match outcome with
  | .ok data => social_results_of_data data limit_max
  | .raised => []

/-- C4 counterexample: on a model exception the utils.py ranking function
does not return an empty or default-shaped result: it fabricates the
non-empty ranking `[("a", 0.8)]`, identical to the output of a successful
run whose model scored `"a"` at 0.8 — an alternative output produced in
place of the failed one. -/
theorem rank_titles_error_path_fabricates_output :
    Utils.rank_titles_by_semantic_similarity ["a"] ModelOutcome.raised (3/4) =
      [("a", (4 : ℚ)/5)] ∧
    Utils.rank_titles_by_semantic_similarity ["a"] ModelOutcome.raised (3/4) ≠ [] ∧
    Utils.rank_titles_by_semantic_similarity ["a"] ModelOutcome.raised (3/4) =
      Utils.rank_titles_by_semantic_similarity ["a"] (ModelOutcome.ok [(4 : ℚ)/5]) (3/4) := by
  refine ⟨rfl, fun h => List.cons_ne_nil _ _ h, ?_⟩
  simp only [Utils.rank_titles_by_semantic_similarity,
    App.rank_titles_by_semantic_similarity]
  norm_num [List.filter_cons, List.mergeSort_singleton]

/-- C4 amended: every error path logs and returns a fixed result, but not all
of them are empty or default-shaped: `get_social_results` does return `[]` on
a SerpAPI exception, yet `rank_titles_by_semantic_similarity` recovers with a
fabricated ranking scoring every title 0.8, and `generate_pdf_report`
recovers by returning the rendered HTML written to a fallback file. -/
theorem error_paths_recovery_behaviour :
    (∀ limit_max : Nat, Utils.get_social_results SearchOutcome.raised limit_max = []) ∧
    (∀ (title : String) (titles : List String) (threshold : ℚ),
      Utils.rank_titles_by_semantic_similarity (title :: titles) ModelOutcome.raised threshold =
        (title :: titles).map (fun t => (t, (4 : ℚ)/5))) ∧
    (∀ html_report : String,
      ReportGen.generate_pdf_report html_report PdfConversion.raised =
        ReportArtifact.htmlFallback html_report) := by
  refine ⟨fun _ => rfl, fun title titles threshold => ?_, fun _ => rfl⟩
  simp [Utils.rank_titles_by_semantic_similarity]

/-! ## JSON-LD schema model (C2)

`analyze_target_content` parses each `ld+json` script into a Python value
made of dicts, lists and scalars.  The mutual inductive keeps every
recursion structural. -/

mutual
inductive Json where
  | str (s : String)
  | other
  | arr (items : JsonArr)
  | obj (fields : JsonObj)
inductive JsonArr where
  | nil
  | cons (hd : Json) (tl : JsonArr)
inductive JsonObj where
  | nil
  | cons (key : String) (val : Json) (tl : JsonObj)
end

/-- Python `dict` lookup (dict keys are unique, so first match). -/
def JsonObj.find (key : String) : JsonObj → Option Json
  | .nil => none
  | .cons k v tl => if k = key then some v else JsonObj.find key tl

mutual
/-- `flatten_schema` (app.py 150-157, utils.py 324-331): lists flatten
elementwise; a dict first yields the flattening of its `"@graph"` value
(when present) and then itself; scalars yield nothing. -/
def flatten_schema : Json → List Json
  | .arr items => flatten_schema_list items
  | .obj fields => flatten_schema_graph fields ++ [.obj fields]
  | _ => []
def flatten_schema_list : JsonArr → List Json
  | .nil => []
  | .cons hd tl => flatten_schema hd ++ flatten_schema_list tl
def flatten_schema_graph : JsonObj → List Json
  | .nil => []
  | .cons k v tl => if k = "@graph" then flatten_schema v else flatten_schema_graph tl
end

/-- The list branch of the `"@type"` comparison: some string element matches
case-insensitively.  (CPython would raise on a non-string list element; such
elements are modelled as non-matching.) -/
def atype_list_matches (schema_type : String) : JsonArr → Bool
  | .nil => false
  | .cons (.str t) tl =>
      (py_lower t = py_lower schema_type) || atype_list_matches schema_type tl
  | .cons _ tl => atype_list_matches schema_type tl

/-- The `"@type"` comparison of `schema_implemented` (app.py 161-167): a
string `@type` matches case-insensitively; a list `@type` matches when one
of its elements does; anything else does not match. -/
def atype_matches (schema_type : String) : Json → Bool
  | .str s => py_lower s = py_lower schema_type
  | .arr ts => atype_list_matches schema_type ts
  | _ => false

/-- `item.get("@type", "")` followed by the match (app.py 160-167). -/
def item_atype_matches (schema_type : String) (item : Json) : Bool :=
  match item with
  | .obj fields => atype_matches schema_type ((JsonObj.find "@type" fields).getD (.str ""))
  | _ => false

/-- `schema_implemented` (app.py 159-168, utils.py 333-342). -/
def schema_implemented (schema_data : Json) (schema_type : String) : Bool :=
  (flatten_schema schema_data).any (item_atype_matches schema_type)

structure SchemaRow where
  schema : String
  implemented : String
  remarks : String
  deriving DecidableEq, Repr

/-- The fixed checklist of app.py 171-178. -/
def SCHEMA_CHECKLIST : List (String × String) :=
  [("Breadcrumbs", "BreadcrumbList"), ("FAQ", "FAQPage"), ("Article", "Article"),
   ("Video", "VideoObject"), ("Organization", "Organization"), ("How-to", "HowTo")]

/-- `build_schema_table` (app.py 170-185), the single-argument form the
claim quantifies over. -/
def App.build_schema_table (schema_data : Json) : List SchemaRow :=
  SCHEMA_CHECKLIST.map (fun entry =>
    if schema_implemented schema_data entry.2 then
      { schema := entry.1, implemented := "Yes", remarks := "-" }
    else
      { schema := entry.1, implemented := "No", remarks := "Need to be Implemented" })

/-- The utils.py checklist (utils.py 39-46) differs in the Article entry. -/
def Utils.SCHEMA_CHECKLIST : List (String × String) :=
  [("Breadcrumbs", "BreadcrumbList"), ("FAQ", "FAQPage"), ("Article", "articleBody"),
   ("Video", "VideoObject"), ("Organization", "Organization"), ("How-to", "HowTo")]

/-- `build_schema_table` (utils.py 344-358): `content` is the fetched page
text (`""` when the fetch fails); a raw substring occurrence of the schema
type in the page also counts as implemented. -/
def Utils.build_schema_table (schema_data : Json) (content : String) : List SchemaRow :=
  Utils.SCHEMA_CHECKLIST.map (fun entry =>
    if schema_implemented schema_data entry.2 then
      { schema := entry.1, implemented := "Yes", remarks := "-" }
    else if str_in entry.2 content then
      { schema := entry.1, implemented := "Yes", remarks := "-" }
    else
      { schema := entry.1, implemented := "No", remarks := "Need to be Implemented" })

/-- The claim's occurrence predicate: the checklist's schema type occurs
case-insensitively as an `@type` in the flattened schema data. -/
def AtTypeOccurs (schema_data : Json) (schema_type : String) : Prop :=
  ∃ item ∈ flatten_schema schema_data, item_atype_matches schema_type item = true

theorem schema_implemented_iff (schema_data : Json) (schema_type : String) :
    schema_implemented schema_data schema_type = true ↔ AtTypeOccurs schema_data schema_type := by
  simp [schema_implemented, AtTypeOccurs, List.any_eq_true]

/-- C2: `build_schema_table` returns exactly six rows in the fixed checklist
order (Breadcrumbs, FAQ, Article, Video, Organization, How-to); a row is
`"Yes"`/`"-"` exactly when its checklist schema type occurs
case-insensitively as an `@type` in the flattened schema data, and otherwise
is `"No"`/`"Need to be Implemented"`. -/
theorem build_schema_table_rows (schema_data : Json) :
    (App.build_schema_table schema_data).length = 6 ∧
    (App.build_schema_table schema_data).map SchemaRow.schema =
      ["Breadcrumbs", "FAQ", "Article", "Video", "Organization", "How-to"] ∧
    ∀ row ∈ App.build_schema_table schema_data, ∃ entry ∈ SCHEMA_CHECKLIST,
      row.schema = entry.1 ∧
      ((row.implemented = "Yes" ∧ row.remarks = "-") ↔ AtTypeOccurs schema_data entry.2) ∧
      ((row.implemented = "No" ∧ row.remarks = "Need to be Implemented") ↔
        ¬ AtTypeOccurs schema_data entry.2) := by
  refine ⟨by simp [App.build_schema_table, SCHEMA_CHECKLIST], ?_, ?_⟩
  · simp only [App.build_schema_table, SCHEMA_CHECKLIST, List.map_cons, List.map_nil,
      apply_ite SchemaRow.schema]
    simp
  · intro row hrow
    obtain ⟨entry, hentry, heq⟩ := List.mem_map.mp hrow
    refine ⟨entry, hentry, ?_⟩
    by_cases h : schema_implemented schema_data entry.2
    · have hocc := (schema_implemented_iff schema_data entry.2).mp h
      rw [if_pos h] at heq
      subst heq
      refine ⟨rfl, ?_, ?_⟩
      · simp [hocc]
      · constructor
        · intro hcontra
          simp at hcontra
        · intro hcontra
          exact absurd hocc hcontra
    · have hocc : ¬ AtTypeOccurs schema_data entry.2 :=
        fun hc => h ((schema_implemented_iff schema_data entry.2).mpr hc)
      rw [if_neg h] at heq
      subst heq
      refine ⟨rfl, ?_, ?_⟩
      · constructor
        · intro hcontra
          simp at hcontra
        · intro hc
          exact absurd hc hocc
      · simp [hocc]

/-- The FAQ row produced for the concrete payload below. -/
def faq_row : SchemaRow := { schema := "FAQ", implemented := "Yes", remarks := "-" }

/-- A concrete parsed ld+json payload `\x7b"@type": "faqPAGE"\x7d`. -/
def faq_payload : Json := Json.obj (.cons "@type" (.str "faqPAGE") .nil)

/-- Witness for C2 at the concrete payload `faq_payload` and its FAQ row. -/
theorem build_schema_table_rows_witness :
    ∃ entry ∈ SCHEMA_CHECKLIST, faq_row.schema = entry.1 ∧
      ((faq_row.implemented = "Yes" ∧ faq_row.remarks = "-") ↔
        AtTypeOccurs faq_payload entry.2) ∧
      ((faq_row.implemented = "No" ∧ faq_row.remarks = "Need to be Implemented") ↔
        ¬ AtTypeOccurs faq_payload entry.2) :=
  (build_schema_table_rows faq_payload).2.2 faq_row (by decide)

/-! ## get_headers_and_images_in_range (app.py 187-206, utils.py 360-379)

`soup.find_all(["h1", "h2", "h3", "img"])` yields the page's header and
image elements in document traversal order; an element is modelled by its
tag and the attribute values the loop reads (header text already stripped,
as `get_text(strip=True)` returns it).  The utils.py copy additionally skips
images whose lowercased src does not start with `"http"` (utils.py 375); the
flag `require_http` selects the copy. -/

inductive HTag where
  | h1 | h2 | h3
  deriving DecidableEq, Repr

/-- An element yielded by `soup.find_all(["h1", "h2", "h3", "img"])`. -/
inductive PageElem where
  | header (tag : HTag) (text : String)
  | image (src alt : Option String)
  deriving DecidableEq, Repr

structure HeaderRec where
  tag : String
  text : String
  deriving DecidableEq, Repr

structure ImgRec where
  src : String
  alt : String
  deriving DecidableEq, Repr

def HTag.upperName : HTag → String
  | .h1 => "H1"
  | .h2 => "H2"
  | .h3 => "H3"

/-- The loop of `get_headers_and_images_in_range`, with the two mutable
flags `found_first_h1` and `reached_faq` as arguments. -/
def headers_images_loop (require_http : Bool) :
    List PageElem → Bool → Bool → List HeaderRec × List ImgRec
  | [], _, _ => ([], [])
  | .header tag text :: rest, found_first_h1, reached_faq =>
      let found' := found_first_h1 || (tag = HTag.h1)
      let reached' := reached_faq || str_in "faq" (py_lower text)
      let result := headers_images_loop require_http rest found' reached'
      ({ tag := tag.upperName, text := text } :: result.1, result.2)
  | .image src alt :: rest, found_first_h1, reached_faq =>
      let s := py_lower (src.getD "")
      let a := py_lower (alt.getD "")
      let skip := (require_http && !(py_startswith s "http")) ||
        str_in "icon" s || str_in "favicon" s || str_in "icon" a
      let result := headers_images_loop require_http rest found_first_h1 reached_faq
      if skip then result
      else if found_first_h1 && !reached_faq then
        (result.1, { src := src.getD "", alt := alt.getD "" } :: result.2)
      else result

/-- `get_headers_and_images_in_range`: both flags start false. -/
def get_headers_and_images_in_range (require_http : Bool) (elems : List PageElem) :
    List HeaderRec × List ImgRec :=
  headers_images_loop require_http elems false false

/-- Loop invariant behind C10: an image is only collected while `reached_faq`
is still false, at a position preceded by an h1 (or an initially-set flag)
and by no "faq" header, and never with "icon" in its lowercased src or alt. -/
theorem headers_images_loop_images_spec (require_http : Bool) :
    ∀ (elems : List PageElem) (found_first_h1 reached_faq : Bool) (im : ImgRec),
      im ∈ (headers_images_loop require_http elems found_first_h1 reached_faq).2 →
      reached_faq = false ∧
      ∃ pre src alt post, elems = pre ++ PageElem.image src alt :: post ∧
        im = { src := src.getD "", alt := alt.getD "" } ∧
        (found_first_h1 = true ∨ ∃ text, PageElem.header HTag.h1 text ∈ pre) ∧
        (∀ tag text, PageElem.header tag text ∈ pre → str_in "faq" (py_lower text) = false) ∧
        str_in "icon" (py_lower im.src) = false ∧
        str_in "icon" (py_lower im.alt) = false := by
  intro elems
  induction elems with
  | nil =>
      intro f r im him
      simp [headers_images_loop] at him
  | cons el rest ih =>
      intro f r im him
      cases el with
      | header tag text =>
          simp only [headers_images_loop] at him
          obtain ⟨hr', pre, src, alt, post, hdec, himeq, hfound, hfaq, hi1, hi2⟩ :=
            ih _ _ im him
          have hr : r = false ∧ str_in "faq" (py_lower text) = false := by
            simpa using hr'
          refine ⟨hr.1, PageElem.header tag text :: pre, src, alt, post, by simp [hdec],
            himeq, ?_, ?_, hi1, hi2⟩
          · rcases hfound with hf | ⟨t, ht⟩
            · rcases Bool.or_eq_true_iff.mp hf with hf | htag
              · exact Or.inl hf
              · exact Or.inr ⟨text, by simp [show tag = HTag.h1 from by simpa using htag]⟩
            · exact Or.inr ⟨t, List.mem_cons_of_mem _ ht⟩
          · intro tag' text' hmem
            rcases List.mem_cons.mp hmem with heq | hmem'
            · cases heq
              exact hr.2
            · exact hfaq tag' text' hmem'
      | image src alt =>
          simp only [headers_images_loop] at him
          by_cases hskip : ((require_http && !(py_startswith (py_lower (src.getD "")) "http")) ||
              str_in "icon" (py_lower (src.getD "")) ||
              str_in "favicon" (py_lower (src.getD "")) ||
              str_in "icon" (py_lower (alt.getD ""))) = true
          · rw [if_pos hskip] at him
            obtain ⟨hr, pre, src', alt', post, hdec, himeq, hfound, hfaq, hi1, hi2⟩ :=
              ih _ _ im him
            refine ⟨hr, PageElem.image src alt :: pre, src', alt', post, by simp [hdec],
              himeq, ?_, ?_, hi1, hi2⟩
            · rcases hfound with hf | ⟨t, ht⟩
              · exact Or.inl hf
              · exact Or.inr ⟨t, List.mem_cons_of_mem _ ht⟩
            · intro tag' text' hmem
              rcases List.mem_cons.mp hmem with heq | hmem'
              · exact absurd heq (by simp)
              · exact hfaq tag' text' hmem'
          · rw [if_neg hskip] at him
            by_cases hcoll : (f && !r) = true
            · rw [if_pos hcoll] at him
              rcases List.mem_cons.mp him with himeq | him'
              · have hand : f = true ∧ r = false := by simpa using hcoll
                have hf : f = true := hand.1
                have hr : r = false := hand.2
                have hskips : str_in "icon" (py_lower (src.getD "")) = false ∧
                    str_in "icon" (py_lower (alt.getD "")) = false := by
                  constructor <;>
                    [skip; skip] <;> simp_all
                refine ⟨hr, [], src, alt, rest, rfl, himeq, Or.inl hf, by simp, ?_, ?_⟩
                · rw [himeq]
                  exact hskips.1
                · rw [himeq]
                  exact hskips.2
              · obtain ⟨hr, pre, src', alt', post, hdec, himeq, hfound, hfaq, hi1, hi2⟩ :=
                  ih _ _ im him'
                refine ⟨hr, PageElem.image src alt :: pre, src', alt', post, by simp [hdec],
                  himeq, ?_, ?_, hi1, hi2⟩
                · rcases hfound with hfo | ⟨t, ht⟩
                  · exact Or.inl hfo
                  · exact Or.inr ⟨t, List.mem_cons_of_mem _ ht⟩
                · intro tag' text' hmem
                  rcases List.mem_cons.mp hmem with heq | hmem'
                  · exact absurd heq (by simp)
                  · exact hfaq tag' text' hmem'
            · rw [if_neg hcoll] at him
              obtain ⟨hr, pre, src', alt', post, hdec, himeq, hfound, hfaq, hi1, hi2⟩ :=
                ih _ _ im him
              refine ⟨hr, PageElem.image src alt :: pre, src', alt', post, by simp [hdec],
                himeq, ?_, ?_, hi1, hi2⟩
              · rcases hfound with hfo | ⟨t, ht⟩
                · exact Or.inl hfo
                · exact Or.inr ⟨t, List.mem_cons_of_mem _ ht⟩
              · intro tag' text' hmem
                rcases List.mem_cons.mp hmem with heq | hmem'
                · exact absurd heq (by simp)
                · exact hfaq tag' text' hmem'

/-- C10: every image returned by `get_headers_and_images_in_range` (either
copy: `require_http = false` is app.py 187-206, `true` is utils.py 360-379)
occurs in document traversal order after an h1 element and before any
h1/h2/h3 header whose text contains "faq" (case-insensitively) has been
encountered, and no returned image has "icon" as a substring of its
lowercased src or lowercased alt attribute. -/
theorem images_in_range_spec (require_http : Bool) (elems : List PageElem) (im : ImgRec)
    (him : im ∈ (get_headers_and_images_in_range require_http elems).2) :
    ∃ pre src alt post, elems = pre ++ PageElem.image src alt :: post ∧
      im = { src := src.getD "", alt := alt.getD "" } ∧
      (∃ text, PageElem.header HTag.h1 text ∈ pre) ∧
      (∀ tag text, PageElem.header tag text ∈ pre → str_in "faq" (py_lower text) = false) ∧
      str_in "icon" (py_lower im.src) = false ∧
      str_in "icon" (py_lower im.alt) = false := by
  obtain ⟨-, pre, src, alt, post, h1, h2, h3, h4, h5, h6⟩ :=
    headers_images_loop_images_spec require_http elems false false im him
  exact ⟨pre, src, alt, post, h1, h2, h3.resolve_left (by simp), h4, h5, h6⟩

/-- A concrete element sequence: an h1, an in-range image, a FAQ header and a
post-FAQ image. -/
def c10_elems : List PageElem :=
  [PageElem.header HTag.h1 "Online Fax", PageElem.image (some "https://x.com/a.png") (some "diagram"),
   PageElem.header HTag.h2 "FAQ section", PageElem.image (some "https://x.com/b.png") none]

def c10_img : ImgRec := { src := "https://x.com/a.png", alt := "diagram" }

/-- Witness for C10 at the concrete page `c10_elems`. -/
theorem images_in_range_spec_witness :
    ∃ pre src alt post, c10_elems = pre ++ PageElem.image src alt :: post ∧
      c10_img = { src := src.getD "", alt := alt.getD "" } ∧
      (∃ text, PageElem.header HTag.h1 text ∈ pre) ∧
      (∀ tag text, PageElem.header tag text ∈ pre → str_in "faq" (py_lower text) = false) ∧
      str_in "icon" (py_lower c10_img.src) = false ∧
      str_in "icon" (py_lower c10_img.alt) = false :=
  images_in_range_spec false c10_elems c10_img (by decide)

/-! ## External endpoints contacted by the data-fetching functions (C5)

Each entry of `requested_endpoints` transcribes the network calls issued
directly in the body of one function of the repository. -/

inductive Endpoint where
  /-- `requests.get("https://serpapi.com/search", ...)` or a
  `serpapi.GoogleSearch` query (both target the SerpAPI search API). -/
  | serpapiSearch
  /-- `openai.OpenAI(api_key=...).chat.completions.create(...)`. -/
  | openaiChat
  /-- `requests.get(<page url>, headers=HEADERS)`: plain web-page scraping. -/
  | scrapedPage
  deriving DecidableEq, Repr

/-- The functions of the repository that issue network requests. -/
inductive FetchFn where
  /-- app.py 94-103 -/
  | appGetSerpResults
  /-- app.py 208-214, `requests.get(target_url)` -/
  | appAnalyzeTargetContent
  /-- app.py 230-241 -/
  | appGetSocialResults
  /-- app.py 252-275 -/
  | appGetYoutubeResults
  /-- utils.py 75-82 -/
  | utilsFetchPageContent
  /-- utils.py 171-185 -/
  | utilsGetSerpResults
  /-- utils.py 187-203 -/
  | utilsGet50SerpResults
  /-- utils.py 382-401 -/
  | utilsGetEmbeddedVideos
  /-- utils.py 403-442 -/
  | utilsSearchYoutubeVideo
  /-- utils.py 523-620 -/
  | utilsPerformContentGapAnalysis
  /-- utils.py 622-660 -/
  | utilsGetAltTextSuggestion
  /-- utils.py 662-713, `requests.get(target_url)` -/
  | utilsAnalyzeTargetContent
  /-- utils.py 720-770, `requests.get(url)` per competitor -/
  | utilsGetCompetitorsContent
  /-- utils.py 772-817 -/
  | utilsGetSocialResults
  /-- utils.py 857-918 -/
  | utilsGetYoutubeResults
  deriving DecidableEq, Fintype, Repr

/-- The endpoints each function's body requests, read off the source. -/
def requested_endpoints : FetchFn → List Endpoint
  | .appGetSerpResults => [.serpapiSearch]
  | .appAnalyzeTargetContent => [.scrapedPage]
  | .appGetSocialResults => [.serpapiSearch]
  | .appGetYoutubeResults => [.serpapiSearch]
  | .utilsFetchPageContent => [.scrapedPage]
  | .utilsGetSerpResults => [.serpapiSearch]
  | .utilsGet50SerpResults => [.serpapiSearch]
  | .utilsGetEmbeddedVideos => [.scrapedPage]
  | .utilsSearchYoutubeVideo => [.serpapiSearch]
  | .utilsPerformContentGapAnalysis => [.openaiChat]
  | .utilsGetAltTextSuggestion => [.openaiChat]
  | .utilsAnalyzeTargetContent => [.scrapedPage]
  | .utilsGetCompetitorsContent => [.scrapedPage]
  | .utilsGetSocialResults => [.serpapiSearch]
  | .utilsGetYoutubeResults => [.serpapiSearch]

/-- An endpoint that is a third-party API (as opposed to a scraped page). -/
def Endpoint.is_api : Endpoint → Bool
  | .serpapiSearch => true
  | .openaiChat => true
  | .scrapedPage => false

/-- C5 counterexample: `perform_content_gap_analysis` contacts the OpenAI
chat-completions API — a second external API endpoint distinct from the
search API. -/
theorem second_api_endpoint_contacted :
    Endpoint.openaiChat ∈ requested_endpoints FetchFn.utilsPerformContentGapAnalysis ∧
    Endpoint.openaiChat.is_api = true ∧
    Endpoint.openaiChat ≠ Endpoint.serpapiSearch := by decide

/-- C5 amended: every API request of every data-fetching function targets
either the SerpAPI search endpoint or the OpenAI chat-completions endpoint,
and the latter is contacted only by `perform_content_gap_analysis` and
`get_alt_text_suggestion`; all remaining traffic is plain page scraping. -/
theorem api_endpoints_catalogue :
    ∀ (f : FetchFn) (e : Endpoint), e ∈ requested_endpoints f → e.is_api = true →
      e = Endpoint.serpapiSearch ∨
      (e = Endpoint.openaiChat ∧
        (f = FetchFn.utilsPerformContentGapAnalysis ∨
         f = FetchFn.utilsGetAltTextSuggestion)) := by
  decide

/-- Witness for the amended C5 at `get_serp_results`. -/
theorem api_endpoints_catalogue_witness :
    Endpoint.serpapiSearch = Endpoint.serpapiSearch ∨
    (Endpoint.serpapiSearch = Endpoint.openaiChat ∧
      (FetchFn.appGetSerpResults = FetchFn.utilsPerformContentGapAnalysis ∨
       FetchFn.appGetSerpResults = FetchFn.utilsGetAltTextSuggestion)) :=
  api_endpoints_catalogue FetchFn.appGetSerpResults Endpoint.serpapiSearch
    (by decide) (by decide)

/-! ## The ranking cells of the two app.py renderers (C7)

`report_data` (app.py 614-630) always carries the keys
`domain_organic_position` and `domain_ai_position` (possibly `None`), and
never defines keys named `organic_position` or `ai_position`.  The DOCX
renderer (app.py 311-314) writes
`str(data.get("domain_organic_position", "Not Ranking"))`; the PDF template
(app.py 497-498) reads the Jinja2 variables `organic_position` and
`ai_position`, bound by `template.render(**data)`. -/

/-- The ranking-relevant keys of a report data dict; `none` = key absent. -/
structure RankingData where
  keyword : String := ""
  domain_organic_position : Option PyVal := none
  domain_ai_position : Option PyVal := none
  organic_position : Option PyVal := none
  ai_position : Option PyVal := none
  deriving DecidableEq, Repr

/-- Jinja2 truthiness: an undefined variable, and Python `None`, `0` and
`""`, are falsy. -/
def jinja_truthy : Option PyVal → Bool
  | none => false
  | some .pyNone => false
  | some (.pyInt n) => n ≠ 0
  | some (.pyStr s) => s ≠ ""

/-- The template expression `x if x else fallback`, rendered. -/
def jinja_if_expr (v : Option PyVal) (fallback : String) : String :=
  if jinja_truthy v then py_str (v.getD .pyNone) else fallback

/-- The Google Search / Google - AI Overview cells written by
`generate_docx_report` (app.py 311-314). -/
def docx_ranking_cells (data : RankingData) : String × String :=
  (py_str (data.domain_organic_position.getD (.pyStr "Not Ranking")),
   py_str (data.domain_ai_position.getD (.pyStr "Not Ranking")))

/-- The same two cells rendered by the `generate_pdf_report` template
(app.py 497-498). -/
def pdf_ranking_cells (data : RankingData) : String × String :=
  (jinja_if_expr data.organic_position "Not Ranking within 5 Pages",
   jinja_if_expr data.ai_position "Not Ranking")

/-- The report data compiled by the pipeline when the domain ranks 3rd
organically and 2nd in the AI Overview (app.py 614-630: the `domain_*` keys
are set, `organic_position` / `ai_position` are never defined). -/
def c7_report_data : RankingData :=
  { keyword := "online fax", domain_organic_position := some (.pyInt 3),
    domain_ai_position := some (.pyInt 2) }

/-- C7 (code bug evidence): at `c7_report_data` the DOCX renderer writes
("3", "2") while the PDF template — reading the never-defined keys — renders
its fallback strings; the two renderers disagree on both ranking cells. -/
theorem renderer_ranking_cells_disagree :
    docx_ranking_cells c7_report_data = ("3", "2") ∧
    pdf_ranking_cells c7_report_data = ("Not Ranking within 5 Pages", "Not Ranking") ∧
    docx_ranking_cells c7_report_data ≠ pdf_ranking_cells c7_report_data := by
  refine ⟨by decide, by decide, by decide⟩

/-! ## The analysis pipeline (app.py 561-630) and its statelessness (C8)

The submitted-form block computes `report_data` from the keyword, the target
URL, the SERP responses, the scraped target page and the model scores, then
writes the PDF and DOCX artifacts.  Every function below transcribes the
corresponding app.py helper; the externally-determined data (API responses,
scraped-page analysis, similarity scores) enters as an `External` record,
fixed by the claim's hypothesis of identical responses across the two runs. -/

/-- `extract_competitor_urls` (app.py 105-111). -/
def extract_competitor_urls (serp_data : SerpData) : List String :=
  match serp_data.organic_results with
  | some results => results.filterMap (fun result => result.link)
  | none => []

/-- The priority source set of `get_ai_overview_competitors` (app.py 114-117);
a Python set, used only through order-independent membership tests. -/
def priority_sources : List String :=
  ["faxplus.com", "ifaxapp.com", "faxburner.com", "faxauthority.com",
   "pandadoc.com", "cocofax.com", "wisefax.com"]

/-- `get_ai_overview_competitors` (app.py 113-130): trimmed reference links,
priority sources first, truncated to five. -/
def App.get_ai_overview_competitors (serp_data : SerpData) : List String :=
  match serp_data.ai_overview with
  | some ai =>
      match ai.references with
      | some refs =>
          let links := refs.filterMap (fun ref => ref.link.map trim_url)
          let prioritized := links.filter
            (fun trimmed_link => priority_sources.any (fun source => str_in source trimmed_link))
          let others := links.filter
            (fun trimmed_link => !priority_sources.any (fun source => str_in source trimmed_link))
          (prioritized ++ others).take 5
      | none => []
  | none => []

/-- `find_domain_position_in_ai` (app.py 86-92). -/
def App.find_domain_position_in_ai (serp_data : SerpData) (domain : String) : PyVal :=
  match serp_data.ai_overview with
  | some ai =>
      match ai.references with
      | some refs =>
          match refs.findIdx? (fun ref => str_in domain (py_lower (ref.link.getD ""))) with
          | some i => .pyInt (i + 1)
          | none => .pyNone
      | none => .pyNone
  | none => .pyNone

/-- `get_ai_overview_content` (app.py 132-148): stripped paragraph snippets
and "title snippet" list items, joined by blank lines. -/
def App.get_ai_overview_content (serp_data : SerpData) : String :=
  match serp_data.ai_overview with
  | some ai =>
      match ai.text_blocks with
      | some blocks =>
          let content_lines := blocks.flatMap (fun block =>
            if block.btype = some "paragraph" then
              let snippet := py_strip (block.snippet.getD "")
              if snippet ≠ "" then [snippet] else []
            else if block.btype = some "list" then
              (block.list.getD []).filterMap (fun item =>
                let title := py_strip (item.title.getD "")
                let snippet := py_strip (item.snippet.getD "")
                let combined :=
                  if title ≠ "" ∧ snippet ≠ "" then title ++ " " ++ snippet
                  else if title ≠ "" then title else snippet
                if combined ≠ "" then some combined else none)
            else [])
          String.intercalate "\n\n" content_lines
      | none => ""
  | none => ""

/-- `get_social_results` (app.py 230-241): the keyword and site only build
the query; rows are taken from the response as given. -/
def App.get_social_results (data : SerpData) (limit_max : Nat) : List SocialResult :=
  social_results_of_data data limit_max

structure KeyMoment where
  time : Option String := none
  title : Option String := none
  deriving DecidableEq, Repr

/-- The extra organic-result keys read by `get_youtube_results`
(app.py 252-275); `none` = key absent. -/
structure YtRawResult where
  title : Option String := none
  link : Option String := none
  displayed_link : Option String := none
  source : Option String := none
  key_moments : Option (List KeyMoment) := none
  snippet : Option String := none
  deriving DecidableEq, Repr

/-- The YouTube response payload (`organic_results` as given). -/
structure YtSerpData where
  organic_results : Option (List YtRawResult) := none
  deriving DecidableEq, Repr

structure YoutubeResult where
  title : String
  link : String
  displayed_link : String
  source : String
  snippet : String
  key_moments : String
  deriving DecidableEq, Repr

/-- app.py 260-264: a truthy `key_moments` list is joined line by line;
anything else yields the fixed message. -/
def format_key_moments : Option (List KeyMoment) → String
  | some (km :: kms) =>
      String.intercalate "\n" ((km :: kms).map (fun k =>
        "• " ++ k.time.getD "" ++ " - " ++ k.title.getD ""))
  | _ => "Key Moments not found for video."

/-- app.py 265-266: `source_raw.split("·")[-1].strip()` when a `·` occurs. -/
def process_source (source_raw : String) : String :=
  if str_in "·" source_raw then
    py_strip ((split_char '·' source_raw.toList).getLastD []).asString
  else source_raw

/-- `get_youtube_results` (app.py 252-275). -/
def App.get_youtube_results (data : YtSerpData) (limit_max : Nat) : List YoutubeResult :=
  match data.organic_results with
  | some results =>
      take_with_break limit_max (results.map (fun result =>
        { title := result.title.getD "No Title",
          link := result.link.getD "",
          displayed_link := result.displayed_link.getD "",
          source := process_source (result.source.getD ""),
          snippet := result.snippet.getD "",
          key_moments := format_key_moments result.key_moments }))
  | none => []

/-- Python `str.title()` (ASCII): the first alphabetic character of each
alphabetic run is uppercased, the rest lowercased. -/
def py_title_go : List Char → Bool → List Char
  | [], _ => []
  | c :: rest, prev_alpha =>
      (if c.isAlpha then (if prev_alpha then c.toLower else c.toUpper) else c) ::
        py_title_go rest c.isAlpha

def py_title (s : String) : String := (py_title_go s.toList false).asString

/-- A single quote character, used by the f-string literals of app.py 592/600. -/
def single_quote : String := String.singleton (Char.ofNat 39)

/-- The link markup of app.py 592/600. -/
def social_link_html (link title : String) : String :=
  "<a href=" ++ single_quote ++ link ++ single_quote ++ " target=" ++ single_quote ++
    "_blank" ++ single_quote ++ ">" ++ title ++
    "</a><br><small>" ++ link ++ "</small>"

/-- The "relevant" cell of a social channel (app.py 591-594 / 599-602):
`enumerate(ranked_titles)` pairs rank position `i` with the link of the
`i`-th search result (indexing is total in the pipeline, where at most
`len(results)` titles are ranked). -/
def social_relevant (results : List SocialResult) (ranked : List (String × ℚ))
    (empty_msg : String) : String :=
  if ranked = [] then empty_msg
  else
    String.intercalate "<br><br>" (ranked.enum.map (fun p =>
      social_link_html ((results.getD p.1 { title := "", link := "" }).link) p.2.1))

structure SocialChannel where
  channel : String
  relevant : String
  suggestions : String
  deriving DecidableEq, Repr

/-- The value of `content_data = analyze_target_content(...)` (app.py 579),
determined by the scraped target page and the SERP response, both fixed by
the claim's hypothesis. -/
structure ContentAnalysis where
  headers : List HeaderRec
  missing_headers : List String
  images : List ImgRec
  schema_table : List SchemaRow
  deriving DecidableEq, Repr

/-- The `report_data` dict compiled at app.py 614-630. -/
structure ReportData where
  keyword : String
  domain : String
  target_url : String
  competitor_urls : List String
  ai_overview_competitors : List String
  domain_found : Bool
  ai_sources_in_organic_count : Nat
  ai_overview_content : String
  domain_organic_position : PyVal
  domain_ai_position : PyVal
  content_analysis : ContentAnalysis
  social_channels : List SocialChannel
  youtube_results : List YoutubeResult
  ranked_linkedin_titles : List (String × ℚ)
  ranked_reddit_titles : List (String × ℚ)
  deriving DecidableEq

/-- The externally-determined data of one run: SERP responses, the analysis
of the scraped target page, and the similarity scores of the deterministic
sentence-transformer model. -/
structure External where
  serp : SerpData
  target_content : ContentAnalysis
  linkedin_serp : SerpData
  reddit_serp : SerpData
  youtube_serp : YtSerpData
  linkedin_scores : List ℚ
  reddit_scores : List ℚ

/-- app.py 561-630, the computation of `report_data`. -/
def compile_report_data (keyword target_url : String) (ext : External) : ReportData :=
  let serp_data := ext.serp
  let domain := py_lower (extract_domain target_url)
  let competitor_urls := extract_competitor_urls serp_data
  let ai_overview_competitors := App.get_ai_overview_competitors serp_data
  let domain_present := check_domain_in_ai_overview serp_data domain
  let domain_organic_position := App.find_domain_position_in_organic serp_data domain
  let domain_ai_position := App.find_domain_position_in_ai serp_data domain
  let competitor_urls_first20 := (competitor_urls.take 20).map trim_url
  let ai_sources_in_organic_count := (ai_overview_competitors.filter
      (fun source => competitor_urls_first20.contains source)).length
  let ai_overview_content := App.get_ai_overview_content serp_data
  let content_data := ext.target_content
  let linkedin_results := App.get_social_results ext.linkedin_serp 5
  let reddit_results := App.get_social_results ext.reddit_serp 5
  let linkedin_titles := linkedin_results.map (fun r => r.title)
  let reddit_titles := reddit_results.map (fun r => r.title)
  let ranked_linkedin_titles :=
    App.rank_titles_by_semantic_similarity linkedin_titles ext.linkedin_scores (3/4)
  let ranked_reddit_titles :=
    App.rank_titles_by_semantic_similarity reddit_titles ext.reddit_scores (3/4)
  let social_channels : List SocialChannel := [
    { channel := "LinkedIn",
      relevant := social_relevant linkedin_results ranked_linkedin_titles
        "No relevant LinkedIn discussions found.",
      suggestions := "Create an official LinkedIn presence and engage in relevant discussions." },
    { channel := "Reddit",
      relevant := social_relevant reddit_results ranked_reddit_titles
        "No relevant Reddit discussions found.",
      suggestions := "Participate in Reddit discussions to boost engagement." }]
  let youtube_results := App.get_youtube_results ext.youtube_serp 5
  let domain_display := if domain = "efax" then "eFax" else py_title domain
  { keyword := keyword, domain := domain_display, target_url := target_url,
    competitor_urls := competitor_urls,
    ai_overview_competitors := ai_overview_competitors,
    domain_found := domain_present,
    ai_sources_in_organic_count := ai_sources_in_organic_count,
    ai_overview_content := ai_overview_content,
    domain_organic_position := domain_organic_position,
    domain_ai_position := domain_ai_position,
    content_analysis := content_data,
    social_channels := social_channels,
    youtube_results := youtube_results,
    ranked_linkedin_titles := ranked_linkedin_titles,
    ranked_reddit_titles := ranked_reddit_titles }

/-- A file system, mapping file names to contents.  A run only appends: the
PDF goes to a fresh temp file (app.py 517-519) and the DOCX to
`"SEO_Report_" + keyword + ".docx"` (app.py 646-649); no pipeline step reads
an existing file. -/
def FileSys := List (String × String)

def fs_write (fs : FileSys) (name content : String) : FileSys := (name, content) :: fs

/-- One full run of the submitted-form block: compile `report_data`, then
write the two rendered artifacts (the renderers are functions of the report
data alone). -/
def run_analysis (keyword target_url : String) (ext : External)
    (render_to_pdf render_to_docx : ReportData → String) (fs : FileSys) :
    ReportData × FileSys :=
  let report_data := compile_report_data keyword target_url ext
  let fs1 := fs_write fs "tmp.pdf" (render_to_pdf report_data)
  let fs2 := fs_write fs1 ("SEO_Report_" ++ keyword ++ ".docx") (render_to_docx report_data)
  (report_data, fs2)

/-- C8: the pipeline keeps no state across runs.  Two runs with the same
keyword, target URL and identical external responses (SERP payloads,
scraped-page analysis, model scores) compile identical report data, from any
two file systems left behind by previous runs: the initial file system is
never read, only extended by the writes. -/
theorem report_data_stateless (keyword target_url : String) (ext : External)
    (render_to_pdf render_to_docx : ReportData → String) (fsA fsB : FileSys) :
    (run_analysis keyword target_url ext render_to_pdf render_to_docx fsA).1 =
      (run_analysis keyword target_url ext render_to_pdf render_to_docx fsB).1 := rfl
